import Mathlib

/-!
Shallow embedding of `packages/did-key.js/src/index.ts` (hypersign-protocol/did-key.js).

The repository is a dispatch-and-synthesis layer over external per-curve handler
modules (@transmute/did-key-*).  The embedding keeps the handler modules abstract:
every operation that calls into a handler is parametrised by the functions the
handler contract provides (generate, resolve, key-pair from/export).  JavaScript
objects that flow through JSON.stringify are modelled by the `JVal` type below;
JavaScript exceptions are modelled by `Except JsError`, distinguishing deliberate
`throw new Error(msg)` sites from implicit TypeErrors raised by reading a
property of `undefined`.
-/

/-- A JSON-compatible JavaScript value.  Objects are ordered field lists, as
JavaScript object property order is observable through JSON.stringify.
Numbers are modelled as integers (no claim involves non-integral numbers). -/
inductive JVal where
  | null : JVal
  | bool (b : Bool) : JVal
  | num (n : Int) : JVal
  | str (s : String) : JVal
  | arr (elems : List JVal) : JVal
  | obj (fields : List (String × JVal)) : JVal

/-- JavaScript truthiness of a value (used by the `||` chains in the source). -/
def truthy : JVal → Bool
  | .null => false
  | .bool b => b
  | .num n => n != 0
  | .str s => s != ""
  | .arr _ => true
  | .obj _ => true

/-- Truthiness of a possibly absent value; an absent property is `undefined`,
which is falsy. -/
def truthyOpt : Option JVal → Bool
  | none => false
  | some v => truthy v

/-- Property read on a JavaScript object: the value of the first field with the
given name, or `none` for `undefined`. -/
def jLookup (fields : List (String × JVal)) (k : String) : Option JVal :=
  (fields.find? (fun kv => kv.1 == k)).map (fun kv => kv.2)

/-- JavaScript strict equality of a (possibly absent) property against a string
literal, as in `o.kty === \x27EC\x27`: true exactly when the value is that string. -/
def jStrEq (v : Option JVal) (s : String) : Bool :=
  match v with
  | some (.str t) => t == s
  | _ => false

/-- Assigning one field of a JavaScript object: an existing field keeps its
position and gets the new value, a fresh field is appended. -/
def jsInsert (fields : List (String × JVal)) (k : String) (v : JVal) :
    List (String × JVal) :=
  if fields.any (fun kv => kv.1 == k) then
    fields.map (fun kv => if kv.1 == k then (kv.1, v) else kv)
  else
    fields ++ [(k, v)]

/-- JavaScript object spread `\x7b ...base, ...ext \x7d`: fields of `ext` are
assigned left to right on top of `base`, later values winning while the first
occurrence keeps its position. -/
def jsSpread (base ext : List (String × JVal)) : List (String × JVal) :=
  ext.foldl (fun acc kv => jsInsert acc kv.1 kv.2) base

/-- One hexadecimal digit, lower case, for JSON string escapes. -/
def hexDigit (n : Nat) : Char :=
  "0123456789abcdef".toList.getD n '0'

/-- JSON.stringify escaping of a single character of a string. -/
def escapeChar (c : Char) : String :=
  if c = '"' then "\\\""
  else if c = '\\' then "\\\\"
  else if c = '\n' then "\\n"
  else if c = '\r' then "\\r"
  else if c = '\t' then "\\t"
  else if c = (Char.ofNat 8) then "\\b"
  else if c = (Char.ofNat 12) then "\\f"
  else if c.toNat < 32 then
    String.mk ['\\', 'u', '0', '0', hexDigit (c.toNat / 16), hexDigit (c.toNat % 16)]
  else String.singleton c

/-- A JSON string literal with its quotes. -/
def jsonQuote (s : String) : String :=
  "\"" ++ String.join (s.toList.map escapeChar) ++ "\""

mutual

/-- JSON.stringify of a value. -/
def stringify : JVal → String
  | .null => "null"
  | .bool true => "true"
  | .bool false => "false"
  | .num n => toString n
  | .str s => jsonQuote s
  | .arr elems => "[" ++ stringifyElems elems ++ "]"
  | .obj fields => "\x7b" ++ stringifyFields fields ++ "\x7d"

/-- Comma-separated serialization of array elements. -/
def stringifyElems : List JVal → String
  | [] => ""
  | [v] => stringify v
  | v :: rest => stringify v ++ "," ++ stringifyElems rest

/-- Comma-separated serialization of object fields. -/
def stringifyFields : List (String × JVal) → String
  | [] => ""
  | [kv] => jsonQuote kv.1 ++ ":" ++ stringify kv.2
  | kv :: rest => jsonQuote kv.1 ++ ":" ++ stringify kv.2 ++ "," ++ stringifyFields rest

end

/-- UTF-8 bytes of one character, as natural numbers. -/
def charUtf8 (c : Char) : List Nat :=
  let n := c.toNat
  if n < 128 then [n]
  else if n < 2048 then [192 + n / 64, 128 + n % 64]
  else if n < 65536 then [224 + n / 4096, 128 + (n / 64) % 64, 128 + n % 64]
  else [240 + n / 262144, 128 + (n / 4096) % 64, 128 + (n / 64) % 64, 128 + n % 64]

/-- UTF-8 encoding of a string, as natural numbers (kept as `Nat` so concrete
witnesses evaluate in the kernel). -/
def utf8Bytes (s : String) : List Nat :=
  s.toList.flatMap charUtf8

/-- The base64url alphabet. -/
def b64Alphabet : List Char :=
  "ABCDEFGHIJKLMNOPQRSTUVWXYZabcdefghijklmnopqrstuvwxyz0123456789-_".toList

/-- The base64url character for a 6-bit group. -/
def b64Char (n : Nat) : Char :=
  b64Alphabet.getD n 'A'

/-- 6-bit groups of a byte sequence, unpadded (base64 without `=` padding). -/
def b64Groups : List Nat → List Nat
  | b1 :: b2 :: b3 :: rest =>
      (b1 / 4) :: ((b1 % 4) * 16 + b2 / 16) :: ((b2 % 16) * 4 + b3 / 64) ::
        (b3 % 64) :: b64Groups rest
  | [b1, b2] => [b1 / 4, (b1 % 4) * 16 + b2 / 16, (b2 % 16) * 4]
  | [b1] => [b1 / 4, (b1 % 4) * 16]
  | [] => []

/-- `base64url.encode` of the npm base64url package: unpadded base64url of the
UTF-8 bytes, here taken on an already encoded byte list. -/
def base64urlEncode (bytes : List Nat) : String :=
  String.mk ((b64Groups bytes).map b64Char)

/-- A thrown JavaScript exception: either a deliberate `throw new Error(msg)`
or an implicit TypeError from accessing a property of `undefined`. -/
inductive JsError where
  | error (msg : String) : JsError
  | typeError (msg : String) : JsError
deriving DecidableEq

/-- The five imported @transmute handler modules.  The core treats them as
external collaborators; the tag records which module a registry entry denotes. -/
inductive HandlerModule where
  | ed25519 : HandlerModule
  | x25519 : HandlerModule
  | secp256k1 : HandlerModule
  | bls12381 : HandlerModule
  | web : HandlerModule
deriving DecidableEq

/-- The per-curve key-pair classes the classifier can select
(`Secp256k1KeyPair`, `Ed25519KeyPair`, `X25519KeyPair`, `Bls12381G1KeyPair`,
`Bls12381G2KeyPair`, `WebCryptoKey`). -/
inductive KeyPairClass where
  | Secp256k1KeyPair : KeyPairClass
  | Ed25519KeyPair : KeyPairClass
  | X25519KeyPair : KeyPairClass
  | Bls12381G1KeyPair : KeyPairClass
  | Bls12381G2KeyPair : KeyPairClass
  | WebCryptoKey : KeyPairClass
deriving DecidableEq

/-- The `typeMap` object literal: generation type tag to handler module. -/
def typeMap : List (String × HandlerModule) :=
  [("ed25519", .ed25519),
   ("x25519", .x25519),
   ("secp256k1", .secp256k1),
   ("bls12381", .bls12381),
   ("secp256r1", .web),
   ("secp384r1", .web),
   ("secp521r1", .web)]

/-- The `startsWithMap` object literal: 12-character DID prefix to handler
module. -/
def startsWithMap : List (String × HandlerModule) :=
  [("did:key:z6Mk", .ed25519),
   ("did:key:z6LS", .x25519),
   ("did:key:zQ3s", .secp256k1),
   ("did:key:z5Tc", .bls12381),
   ("did:key:zUC7", .bls12381),
   ("did:key:zDna", .web),
   ("did:key:z82L", .web),
   ("did:key:z2J9", .web)]

/-- Lookup among the OWN properties of one of the two registry object
literals (no own property of either map is falsy).  The JavaScript probe
`map[key]` also reaches properties inherited from Object.prototype;
`resolve` models those separately via `objectProtoProps`.  For the generate
path a type string naming an inherited property (for example `constructor`)
would pass the JavaScript probe and then fail with a TypeError calling
`.generate` — a divergence from this model that no registered type and no
claim settled here exhibits. -/
def alistLookup : List (String × HandlerModule) → String → Option HandlerModule
  | [], _ => none
  | (k, v) :: rest, s => if k = s then some v else alistLookup rest s

/-- Generation options.  The source passes either the caller object (whose
only inspected field on the seed path is `secureRandom`, a thunk closing over
the hex seed and returning `Buffer.from(seed, hex)`) or the canonical
`\x7b kty, crvOrSize \x7d` descriptor.  The thunk is represented by the hex
string it encloses. -/
structure GenOpts where
  kty : Option String := none
  crvOrSize : Option String := none
  secureRandomHex : Option String := none
deriving DecidableEq

/-- Resolution options: the `accept` content type.  Modelled as optional
because `generate2` forwards its whole untyped options object here. -/
structure ResOpts where
  accept : Option String := none
deriving DecidableEq

/-- A key pair as returned by a handler: common props `id`, `type`,
`controller` (required by the `DidKey` interface) plus either JWK or
Linked-Data key material. -/
structure DidKey where
  id : String
  type : String
  controller : String
  publicKeyJwk : Option (List (String × JVal)) := none
  privateKeyJwk : Option (List (String × JVal)) := none
  publicKeyBase58 : Option String := none
  privateKeyBase58 : Option String := none

/-- A verification method of a DID document. -/
structure VerificationMethod where
  id : String
  type : String
  controller : String
  publicKeyJwk : Option (List (String × JVal)) := none
  publicKeyBase58 : Option String := none

/-- A DID document as this layer reads and builds it. -/
structure DidDocument where
  id : String
  verificationMethod : List VerificationMethod
  authentication : List String := []
  capabilityInvocation : List String := []
  capabilityDelegation : List String := []
  keyAgreement : List String := []

/-- The result of a resolution. -/
structure DidResolution where
  didDocument : DidDocument

/-- The result of a generation. -/
structure DidGeneration where
  didDocument : DidDocument
  keys : List DidKey

/-- The export arguments `\x7b type, privateKey \x7d` passed to a key-pair
handle. -/
structure ExportArgs where
  type : String
  privateKey : Bool

/-- The `noSupportForSeed` list. -/
def noSupportForSeed : List String := ["secp256r1", "secp384r1", "secp521r1"]

/-- `getOptionsForType`: the canonical descriptor for the three NIST curve
types, a thrown Error for anything else. -/
def getOptionsForType (type : String) : Except JsError GenOpts :=
  if type = "secp256r1" then
    .ok { kty := some "EC", crvOrSize := some "P-256" }
  else if type = "secp384r1" then
    .ok { kty := some "EC", crvOrSize := some "P-384" }
  else if type = "secp521r1" then
    .ok { kty := some "EC", crvOrSize := some "P-521" }
  else
    .error (.error ("No options for type: " ++ type))

/-- `generate`: dispatches on `typeMap`, replaces the options with the
canonical descriptor for seed-incapable types, and calls the handler
(abstracted as `genImpl`). -/
def generate (genImpl : HandlerModule → GenOpts → ResOpts → Except JsError DidGeneration)
    (type : String) (generateOptions : GenOpts) (resolutionOptions : ResOpts) :
    Except JsError DidGeneration :=
  match alistLookup typeMap type with
  | none => .error (.error ("did-key.js does not support: " ++ type))
  | some m =>
    if noSupportForSeed.contains type then
      match getOptionsForType type with
      | .error e => .error e
      | .ok correctOptions => genImpl m correctOptions resolutionOptions
    else
      genImpl m generateOptions resolutionOptions

/-- `did.substring(0, 12)`: the first twelve characters (the registered
prefixes are ASCII, where UTF-16 code units and characters coincide; a DID
whose first twelve code units and first twelve characters differ contains an
astral character there and matches no registered prefix either way). -/
def substring12 (s : String) : String :=
  String.mk (s.toList.take 12)

/-- The own property names of Object.prototype, inherited by the registry
object literals.  When `key` names one of these, the probe `map[key]` yields
a truthy value (a function, or Object.prototype itself for `__proto__`)
none of which carries a `resolve` function.  Only the names of at most 12
characters (`constructor`, `toString`, `valueOf`, `__proto__`) are reachable
through `substring(0, 12)`, which does not pad short strings. -/
def objectProtoProps : List String :=
  ["constructor", "hasOwnProperty", "isPrototypeOf", "propertyIsEnumerable",
   "toLocaleString", "toString", "valueOf", "__defineGetter__",
   "__defineSetter__", "__lookupGetter__", "__lookupSetter__", "__proto__"]

/-- `resolve`: dispatches on the first twelve characters via `startsWithMap`
and forwards the full DID and options to the handler module (abstracted as
`resImpl`).  An own entry forwards; a miss that names an inherited
Object.prototype property passes the truthiness probe and then fails with a
TypeError calling `.resolve` of the inherited value; any other miss throws
the deliberate unsupported-prefix Error. -/
def resolve (resImpl : HandlerModule → String → ResOpts → Except JsError DidResolution)
    (did : String) (resolutionOptions : ResOpts) : Except JsError DidResolution :=
  let startsWith := substring12 did
  match alistLookup startsWithMap startsWith with
  | some m => resImpl m did resolutionOptions
  | none =>
    if objectProtoProps.contains startsWith then
      .error (.typeError "startsWithMap[startsWith].resolve is not a function")
    else
      .error (.error ("did-key.js does not support: " ++ startsWith ++ "..."))

/-- `getKeyPairClassFromKey`: requires type `JsonWebKey2020`, then selects a
key-pair class from `publicKeyJwk.kty` and `publicKeyJwk.crv`, falling through
to `WebCryptoKey`.  Reading `.kty` of an absent `publicKeyJwk` is a TypeError. -/
def getKeyPairClassFromKey (k : VerificationMethod) : Except JsError KeyPairClass :=
  if k.type = "JsonWebKey2020" then
    match k.publicKeyJwk with
    | none => .error (.typeError "Cannot read properties of undefined (reading kty)")
    | some j =>
      if jStrEq (jLookup j "kty") "EC" && jStrEq (jLookup j "crv") "secp256k1" then
        .ok .Secp256k1KeyPair
      else if jStrEq (jLookup j "kty") "OKP" && jStrEq (jLookup j "crv") "Ed25519" then
        .ok .Ed25519KeyPair
      else if jStrEq (jLookup j "kty") "OKP" && jStrEq (jLookup j "crv") "X25519" then
        .ok .X25519KeyPair
      else if jStrEq (jLookup j "kty") "EC" && jStrEq (jLookup j "crv") "BLS12381_G1" then
        .ok .Bls12381G1KeyPair
      else if jStrEq (jLookup j "kty") "EC" && jStrEq (jLookup j "crv") "BLS12381_G2" then
        .ok .Bls12381G2KeyPair
      else
        .ok .WebCryptoKey
  else
    .error (.error "getKeyPairClassFromKey only supports JsonWebKey2020")

/-- `controller.split(sep).pop()` for the single-character separator `:`
(the substring after the last colon, or the whole string without one). -/
def lastSegment (s : String) : String :=
  String.mk ((s.toList.reverse.takeWhile (fun c => c != ':')).reverse)

/-- The caller options object of `generate2`: the fields the source reads
(`type`, `seed`, `kid`) plus `accept`, because the object is also forwarded
as the resolution options (of which only `accept` is in the handler
contract). -/
structure G2Options where
  type : String
  seed : Option String := none
  kid : Option String := none
  accept : Option String := none

/-- The fallback chain `publicKeyJwk.kid || keys[0].controller.split(...).pop()`
reached when `options.kid` is falsy; reading `.kid` of an absent
`publicKeyJwk` is a TypeError. -/
def kidFallback (key : DidKey) : Except JsError JVal :=
  match key.publicKeyJwk with
  | none => .error (.typeError "Cannot read properties of undefined (reading kid)")
  | some pk =>
    match jLookup pk "kid" with
    | some v => if truthy v then .ok v else .ok (.str (lastSegment key.controller))
    | none => .ok (.str (lastSegment key.controller))

/-- `options.kid || publicKeyJwk.kid || keys[0].controller.split(...).pop()`:
JavaScript `||` takes the first truthy operand, so an empty string is skipped. -/
def computeKid (options : G2Options) (key : DidKey) : Except JsError JVal :=
  match options.kid with
  | some s => if s ≠ "" then .ok (.str s) else kidFallback key
  | none => kidFallback key

/-- The object literal `\x7b kid, ...publicKeyJwk \x7d`; spreading `undefined`
adds nothing. -/
def jwkWithKid (kid : JVal) (publicKeyJwk : Option (List (String × JVal))) :
    List (String × JVal) :=
  jsSpread [("kid", kid)] (publicKeyJwk.getD [])

/-- The did:jwk identifier built from a JWK object:
`did:jwk:` plus the unpadded base64url of its JSON serialization. -/
def didOf (jwk : List (String × JVal)) : String :=
  "did:jwk:" ++ base64urlEncode (utf8Bytes (stringify (.obj jwk)))

/-- The re-stamp `\x7b id: didUrl, controller: did, ...k \x7d` applied to each
returned key.  The spread of `k` comes last, so every field `k` carries wins;
`id` and `controller` are required fields of a `DidKey`, hence the stamped
values are always overridden by the ones the handler set and the merge
returns `k` unchanged. -/
def restampKey (didUrl did : String) (k : DidKey) : DidKey :=
  { id := k.id,
    type := k.type,
    controller := k.controller,
    publicKeyJwk := k.publicKeyJwk,
    privateKeyJwk := k.privateKeyJwk,
    publicKeyBase58 := k.publicKeyBase58,
    privateKeyBase58 := k.privateKeyBase58 }

/-- `generate2`: calls `generate` with a seed-backed randomness source
(forwarding the whole options object as resolution options, of which the
handler contract reads `accept`), destructures the first returned key
(a TypeError when there is none), computes the kid, builds the did:jwk
identifier and document, and re-stamps the key list.  The final
`JSON.parse(JSON.stringify(newDoc))` round trip is the identity here: the
built document contains only plain JSON values, which the model carries
directly. -/
def generate2 (genImpl : HandlerModule → GenOpts → ResOpts → Except JsError DidGeneration)
    (options : G2Options) : Except JsError DidGeneration := do
  let g ← generate genImpl options.type { secureRandomHex := options.seed }
    { accept := options.accept }
  match g.keys with
  | [] => .error (.typeError "Cannot destructure property publicKeyJwk of undefined")
  | key :: _ =>
    match computeKid options key with
    | .error e => .error e
    | .ok kid =>
      let jwk := jwkWithKid kid key.publicKeyJwk
      let did := didOf jwk
      let didUrl := did
      let newDoc : DidDocument :=
        { id := did,
          verificationMethod :=
            [{ id := didUrl,
               type := "JsonWebKey2020",
               controller := did,
               publicKeyJwk := some jwk,
               publicKeyBase58 := none }],
          authentication := [didUrl],
          capabilityInvocation := [didUrl],
          capabilityDelegation := [didUrl],
          keyAgreement := [didUrl] }
      let newKeys := [key].map (restampKey didUrl did)
      .ok { keys := newKeys, didDocument := newDoc }

/-- `Promise.all(keys.map(...))` over fallible per-key conversions.  The model
sequences the list left to right; a rejection of any element rejects the
whole, and no claim settled here depends on which of several rejections is
reported. -/
def mapExcept (f : α → Except JsError β) : List α → Except JsError (List β)
  | [] => .ok []
  | x :: xs => do
    let y ← f x
    let ys ← mapExcept f xs
    pure (y :: ys)

/-- The per-key body of `convert`: find the verification method with the key
id in each of the two resolved documents (JavaScript `Array.find` returning
`undefined` on a miss), classify the did+json copy (a miss surfaces as a
TypeError when the classifier reads `.type` of `undefined`), import the key
into the selected class and export it with the new representation type
(a miss in the new document surfaces as a TypeError reading `vm.type`). -/
def convertKey {H : Type}
    (kpFrom : KeyPairClass → DidKey → Except JsError H)
    (kpExport : KeyPairClass → H → ExportArgs → Except JsError DidKey)
    (oldDoc newDoc : DidDocument) (k : DidKey) : Except JsError DidKey :=
  let vm := newDoc.verificationMethod.find? (fun v => v.id == k.id)
  let vmAsJson := oldDoc.verificationMethod.find? (fun v => v.id == k.id)
  match vmAsJson with
  | none => .error (.typeError "Cannot read properties of undefined (reading type)")
  | some vmj => do
    let KeyPair ← getKeyPairClassFromKey vmj
    let k1 ← kpFrom KeyPair k
    match vm with
    | none => .error (.typeError "Cannot read properties of undefined (reading type)")
    | some v => kpExport KeyPair k1 { type := v.type, privateKey := true }

/-- `convert`: resolves `keys[0].controller` once forcing did+json and once
with the caller options (reading `controller` of `undefined` is a TypeError
when the list is empty, before any resolution), converts every key against
those two documents, and returns the converted keys with the new document. -/
def convert {H : Type}
    (resImpl : HandlerModule → String → ResOpts → Except JsError DidResolution)
    (kpFrom : KeyPairClass → DidKey → Except JsError H)
    (kpExport : KeyPairClass → H → ExportArgs → Except JsError DidKey)
    (keys : List DidKey) (resolutionOptions : ResOpts) : Except JsError DidGeneration :=
  match keys with
  | [] => .error (.typeError "Cannot read properties of undefined (reading controller)")
  | k0 :: _ => do
    let oldRepresentation ← resolve resImpl k0.controller
      { accept := some "application/did+json" }
    let newRepresentation ← resolve resImpl k0.controller resolutionOptions
    let converted ← mapExcept
      (convertKey kpFrom kpExport oldRepresentation.didDocument
        newRepresentation.didDocument) keys
    pure { keys := converted, didDocument := newRepresentation.didDocument }

/-- Modelled from the spec: the 12-character did:key prefix owned by each
registered key type (the multicodec plus multibase header of the identifiers
that the external handler of that type produces; the handler code fixing
these prefixes is outside this repository).  `bls12381` owns the G1 and G2
prefixes. -/
def prefixesOfType : String → List String
  | "ed25519" => ["did:key:z6Mk"]
  | "x25519" => ["did:key:z6LS"]
  | "secp256k1" => ["did:key:zQ3s"]
  | "bls12381" => ["did:key:z5Tc", "did:key:zUC7"]
  | "secp256r1" => ["did:key:zDna"]
  | "secp384r1" => ["did:key:z82L"]
  | "secp521r1" => ["did:key:z2J9"]
  | _ => []

/-- The classification table as the specification states it: the five
curve-specific pairs, any other combination the generic web-crypto class.
Stated against `getKeyPairClassFromKey`, which is embedded from the source. -/
def specClassTable (j : List (String × JVal)) : KeyPairClass :=
  if jStrEq (jLookup j "kty") "EC" && jStrEq (jLookup j "crv") "secp256k1" then
    .Secp256k1KeyPair
  else if jStrEq (jLookup j "kty") "OKP" && jStrEq (jLookup j "crv") "Ed25519" then
    .Ed25519KeyPair
  else if jStrEq (jLookup j "kty") "OKP" && jStrEq (jLookup j "crv") "X25519" then
    .X25519KeyPair
  else if jStrEq (jLookup j "kty") "EC" && jStrEq (jLookup j "crv") "BLS12381_G1" then
    .Bls12381G1KeyPair
  else if jStrEq (jLookup j "kty") "EC" && jStrEq (jLookup j "crv") "BLS12381_G2" then
    .Bls12381G2KeyPair
  else
    .WebCryptoKey

/-- A concrete handler key whose id and controller differ from any did:jwk
identifier, exercising the re-stamp in `generate2`. -/
def edKeyFixture : DidKey :=
  { id := "did:key:z6MkTEST#z6MkTEST",
    type := "JsonWebKey2020",
    controller := "did:key:z6MkTEST",
    publicKeyJwk := some [("kty", JVal.str "OKP"), ("crv", JVal.str "Ed25519"),
      ("x", JVal.str "abc")] }

/-- A concrete handler generate implementation returning `edKeyFixture`. -/
def genImplFixture : HandlerModule → GenOpts → ResOpts → Except JsError DidGeneration :=
  fun _ _ _ =>
    .ok { keys := [edKeyFixture],
          didDocument := { id := "did:key:z6MkTEST", verificationMethod := [] } }

/-- A concrete handler generate implementation returning zero keys. -/
def emptyGenImpl : HandlerModule → GenOpts → ResOpts → Except JsError DidGeneration :=
  fun _ _ _ =>
    .ok { keys := [],
          didDocument := { id := "did:key:z6MkTEST", verificationMethod := [] } }

/-- A concrete handler key without a kid in its public JWK, for the kid
priority tests. -/
def kidlessKeyFixture : DidKey :=
  { id := "did:key:zX#zX",
    type := "JsonWebKey2020",
    controller := "did:key:zX",
    publicKeyJwk := some [("kty", JVal.str "OKP")] }

/-- A concrete handler generate implementation returning `kidlessKeyFixture`. -/
def kidlessGenImpl : HandlerModule → GenOpts → ResOpts → Except JsError DidGeneration :=
  fun _ _ _ =>
    .ok { keys := [kidlessKeyFixture],
          didDocument := { id := "did:key:zX", verificationMethod := [] } }

/-- The input key of the conversion fixtures. -/
def convKeyFixture : DidKey :=
  { id := "did:key:z6MkTEST#vm-1",
    type := "JsonWebKey2020",
    controller := "did:key:z6MkTEST",
    publicKeyJwk := some [("kty", JVal.str "OKP"), ("crv", JVal.str "Ed25519"),
      ("x", JVal.str "abc")] }

/-- The did+json resolution of the conversion fixtures: it carries the key id,
but as a Linked-Data suite verification method. -/
def convOldDocFixture : DidDocument :=
  { id := "did:key:z6MkTEST",
    verificationMethod :=
      [{ id := "did:key:z6MkTEST#vm-1",
         type := "Ed25519VerificationKey2020",
         controller := "did:key:z6MkTEST",
         publicKeyBase58 := some "FAKEb58" }] }

/-- The caller-requested resolution of the conversion fixtures: it lacks the
key id entirely. -/
def convNewDocFixture : DidDocument :=
  { id := "did:key:z6MkTEST",
    verificationMethod := [] }

/-- A concrete handler resolve implementation: the did+json accept value gets
`convOldDocFixture`, anything else `convNewDocFixture`. -/
def convResImplFixture : HandlerModule → String → ResOpts → Except JsError DidResolution :=
  fun _ _ ro =>
    if ro.accept = some "application/did+json" then
      .ok { didDocument := convOldDocFixture }
    else
      .ok { didDocument := convNewDocFixture }

/-- A concrete key-pair import implementation that always succeeds. -/
def convFromFixture : KeyPairClass → DidKey → Except JsError Unit :=
  fun _ _ => .ok ()

/-- A concrete key-pair export implementation that returns the input fixture. -/
def convExportFixture : KeyPairClass → Unit → ExportArgs → Except JsError DidKey :=
  fun _ _ _ => .ok convKeyFixture

theorem alistLookup_mem_of_some {m : List (String × HandlerModule)} {s : String}
    {v : HandlerModule} (h : alistLookup m s = some v) : (s, v) ∈ m := by
  induction m with
  | nil => simp [alistLookup] at h
  | cons kv rest ih =>
    obtain ⟨k, v0⟩ := kv
    rw [alistLookup] at h
    by_cases hks : k = s
    · simp [hks] at h
      subst hks
      subst h
      exact List.mem_cons_self _ _
    · simp [hks] at h
      exact List.mem_cons_of_mem _ (ih h)

theorem alistLookup_eq_none_iff (m : List (String × HandlerModule)) (s : String) :
    alistLookup m s = none ↔ s ∉ m.map Prod.fst := by
  induction m with
  | nil => simp [alistLookup]
  | cons kv rest ih =>
    obtain ⟨k, v0⟩ := kv
    rw [alistLookup]
    by_cases hks : k = s
    · simp [hks]
    · simp [hks, ih, Ne.symm hks]

theorem alistLookup_isSome_of_mem {m : List (String × HandlerModule)} {s : String}
    (h : s ∈ m.map Prod.fst) : ∃ v, alistLookup m s = some v := by
  cases hl : alistLookup m s with
  | none => exact absurd h ((alistLookup_eq_none_iff m s).mp hl)
  | some v => exact ⟨v, rfl⟩

theorem b64Char_ne_hash (n : Nat) : b64Char n ≠ '#' := by
  intro h
  unfold b64Char List.getD at h
  cases hg : b64Alphabet.get? n with
  | none =>
    rw [hg] at h
    simp at h
  | some c =>
    rw [hg] at h
    simp at h
    subst h
    have hmem : '#' ∈ b64Alphabet := List.get?_mem hg
    exact absurd hmem (by decide)

theorem didOf_no_hash (jwk : List (String × JVal)) :
    ∀ c ∈ (didOf jwk).toList, c ≠ '#' := by
  intro c hc
  have hsplit : (didOf jwk).toList =
      "did:jwk:".toList ++
        (b64Groups (utf8Bytes (stringify (.obj jwk)))).map b64Char := by
    rfl
  rw [hsplit] at hc
  rcases List.mem_append.mp hc with hl | hr
  · have hc8 : c ∈ ['d', 'i', 'd', ':', 'j', 'w', 'k', ':'] := hl
    simp only [List.mem_cons, List.not_mem_nil, or_false] at hc8
    rcases hc8 with rfl | rfl | rfl | rfl | rfl | rfl | rfl | rfl <;> decide
  · rcases List.mem_map.mp hr with ⟨n, _, hn⟩
    rw [← hn]
    exact b64Char_ne_hash n

theorem mapExcept_error_of_mem {α β : Type} {f : α → Except JsError β} {l : List α}
    {x : α} (hx : x ∈ l) (hfail : ∀ y, f x ≠ .ok y) :
    ∃ e, mapExcept f l = .error e := by
  induction l with
  | nil => cases hx
  | cons a rest ih =>
    rw [mapExcept]
    rcases List.mem_cons.mp hx with rfl | hxr
    · cases hf : f x with
      | error e => exact ⟨e, by simp [hf, Bind.bind, Except.bind]⟩
      | ok y => exact absurd hf (hfail y)
    · cases hf : f a with
      | error e => exact ⟨e, by simp [hf, Bind.bind, Except.bind]⟩
      | ok y =>
        obtain ⟨e, he⟩ := ih hxr
        exact ⟨e, by simp [hf, he, Bind.bind, Except.bind]⟩

theorem convertKey_fails_of_missing {H : Type}
    (kpFrom : KeyPairClass → DidKey → Except JsError H)
    (kpExport : KeyPairClass → H → ExportArgs → Except JsError DidKey)
    (oldDoc newDoc : DidDocument) (k : DidKey)
    (hmiss : (∀ vm ∈ oldDoc.verificationMethod, vm.id ≠ k.id) ∨
             (∀ vm ∈ newDoc.verificationMethod, vm.id ≠ k.id)) :
    ∀ y, convertKey kpFrom kpExport oldDoc newDoc k ≠ .ok y := by
  intro y hy
  rw [convertKey] at hy
  rcases hmiss with hold | hnew
  · have hfind : oldDoc.verificationMethod.find? (fun v => v.id == k.id) = none := by
      rw [List.find?_eq_none]
      intro vm hvm
      simpa using hold vm hvm
    rw [hfind] at hy
    simp at hy
  · have hfind : newDoc.verificationMethod.find? (fun v => v.id == k.id) = none := by
      rw [List.find?_eq_none]
      intro vm hvm
      simpa using hnew vm hvm
    rw [hfind] at hy
    cases hoj : oldDoc.verificationMethod.find? (fun v => v.id == k.id) with
    | none => rw [hoj] at hy; simp at hy
    | some vmj =>
      rw [hoj] at hy
      cases hcl : getKeyPairClassFromKey vmj with
      | error e => simp [hcl, Bind.bind, Except.bind] at hy
      | ok cls =>
        cases hfrom : kpFrom cls k with
        | error e => simp [hcl, hfrom, Bind.bind, Except.bind] at hy
        | ok k1 => simp [hcl, hfrom, Bind.bind, Except.bind] at hy

/-- C3: for the three NIST curve types `generate` discards the caller options
and invokes the handler with the fixed `\x7b kty, crvOrSize \x7d` descriptor
(EC/P-256, EC/P-384, EC/P-521 respectively); for every other registered type
the caller options are passed to the handler unchanged. -/
theorem generate_nist_fixed_options
    (genImpl : HandlerModule → GenOpts → ResOpts → Except JsError DidGeneration)
    (opts : GenOpts) (ro : ResOpts) :
    generate genImpl "secp256r1" opts ro =
      genImpl .web { kty := some "EC", crvOrSize := some "P-256" } ro ∧
    generate genImpl "secp384r1" opts ro =
      genImpl .web { kty := some "EC", crvOrSize := some "P-384" } ro ∧
    generate genImpl "secp521r1" opts ro =
      genImpl .web { kty := some "EC", crvOrSize := some "P-521" } ro ∧
    generate genImpl "ed25519" opts ro = genImpl .ed25519 opts ro ∧
    generate genImpl "x25519" opts ro = genImpl .x25519 opts ro ∧
    generate genImpl "secp256k1" opts ro = genImpl .secp256k1 opts ro ∧
    generate genImpl "bls12381" opts ro = genImpl .bls12381 opts ro :=
  ⟨rfl, rfl, rfl, rfl, rfl, rfl, rfl⟩

/-- Witness for C3 at a concrete handler, options and accept value. -/
theorem generate_nist_fixed_options_witness :
    generate genImplFixture "secp256r1" { secureRandomHex := some "00ff" } { accept := none } =
      genImplFixture .web { kty := some "EC", crvOrSize := some "P-256" } { accept := none } :=
  (generate_nist_fixed_options genImplFixture { secureRandomHex := some "00ff" }
    { accept := none }).1

/-- C4 (counterexample): at the DID `constructor` the 12-character substring
is the whole string, which is no registered prefix, yet `resolve` does not
fail with the unsupported-prefix Error: the truthiness probe finds the
inherited Object.prototype property and the call fails with a TypeError
calling `.resolve` of the inherited value. -/
theorem resolve_proto_property_typeerror :
    substring12 "constructor" ∉ startsWithMap.map Prod.fst ∧
    resolve convResImplFixture "constructor" { accept := none } =
      .error (.typeError "startsWithMap[startsWith].resolve is not a function") ∧
    resolve convResImplFixture "constructor" { accept := none } ≠
      .error (.error ("did-key.js does not support: " ++
        substring12 "constructor" ++ "...")) := by
  refine ⟨by decide, rfl, ?_⟩
  intro h
  exact JsError.noConfusion (Except.error.inj h)

/-- C4 (amended): `resolve` dispatches on exactly the first 12 characters of
the DID: a registered prefix forwards the full DID and the resolution
options to its handler module; an unregistered substring fails — with the
unsupported-prefix Error, unless the substring names an inherited
Object.prototype property (reachable only from a DID of fewer than 12
characters), where the probe passes and the failure is a TypeError calling
`.resolve` of the inherited value. -/
theorem resolve_dispatches_on_first12
    (resImpl : HandlerModule → String → ResOpts → Except JsError DidResolution)
    (did : String) (ro : ResOpts) :
    (substring12 did ∉ startsWithMap.map Prod.fst →
      objectProtoProps.contains (substring12 did) = false →
      resolve resImpl did ro =
        .error (.error ("did-key.js does not support: " ++ substring12 did ++ "..."))) ∧
    (substring12 did ∉ startsWithMap.map Prod.fst →
      objectProtoProps.contains (substring12 did) = true →
      resolve resImpl did ro =
        .error (.typeError "startsWithMap[startsWith].resolve is not a function")) ∧
    (substring12 did ∈ startsWithMap.map Prod.fst →
      ∃ m, alistLookup startsWithMap (substring12 did) = some m ∧
        resolve resImpl did ro = resImpl m did ro) := by
  refine ⟨?_, ?_, ?_⟩
  · intro h hp
    have hnone := (alistLookup_eq_none_iff startsWithMap (substring12 did)).mpr h
    simp [resolve, hnone]
    simpa using hp
  · intro h hp
    have hnone := (alistLookup_eq_none_iff startsWithMap (substring12 did)).mpr h
    simp [resolve, hnone]
    simpa using hp
  · intro h
    obtain ⟨m, hm⟩ := alistLookup_isSome_of_mem h
    exact ⟨m, hm, by simp [resolve, hm]⟩

/-- Witness for amended C4: an unregistered, non-inherited prefix fails with
the unsupported-prefix Error. -/
theorem resolve_dispatches_on_first12_witness :
    resolve convResImplFixture "did:key:zZZZunsupported" { accept := none } =
      .error (.error ("did-key.js does not support: " ++
        substring12 "did:key:zZZZunsupported" ++ "...")) :=
  (resolve_dispatches_on_first12 convResImplFixture "did:key:zZZZunsupported"
    { accept := none }).1 (by decide) (by decide)

/-- C5: the classifier fails on every verification method whose type is not
JsonWebKey2020, and on a JsonWebKey2020 method with a public JWK it returns
exactly the table class: the five specific (kty, crv) pairs map to their
curve key-pair classes and every other combination to the generic
WebCryptoKey class rather than failing. -/
theorem getKeyPairClassFromKey_spec (vm : VerificationMethod)
    (j : List (String × JVal)) :
    (vm.type ≠ "JsonWebKey2020" →
      getKeyPairClassFromKey vm =
        .error (.error "getKeyPairClassFromKey only supports JsonWebKey2020")) ∧
    (vm.type = "JsonWebKey2020" → vm.publicKeyJwk = some j →
      getKeyPairClassFromKey vm = .ok (specClassTable j)) := by
  constructor
  · intro h
    simp [getKeyPairClassFromKey, h]
  · intro h hj
    simp only [getKeyPairClassFromKey, h, if_true, hj, specClassTable]
    split_ifs <;> rfl

/-- Witness for C5: an EC P-256 JWK method resolves to the generic class, not
to a failure. -/
theorem getKeyPairClassFromKey_spec_witness :
    getKeyPairClassFromKey
      { id := "did:example:1#k", type := "JsonWebKey2020", controller := "did:example:1",
        publicKeyJwk := some [("kty", JVal.str "EC"), ("crv", JVal.str "P-256")] } =
      .ok .WebCryptoKey :=
  (getKeyPairClassFromKey_spec
    { id := "did:example:1#k", type := "JsonWebKey2020", controller := "did:example:1",
      publicKeyJwk := some [("kty", JVal.str "EC"), ("crv", JVal.str "P-256")] }
    [("kty", JVal.str "EC"), ("crv", JVal.str "P-256")]).2 rfl rfl

/-- C9: every registered generation type maps in `typeMap` to the same handler
module that `startsWithMap` registers for each of the did:key prefixes that
type owns, so generate and resolve dispatch to the same handler family. -/
theorem typeMap_startsWithMap_same_handler (t : String) (m : HandlerModule)
    (h : alistLookup typeMap t = some m) :
    ∀ p ∈ prefixesOfType t, alistLookup startsWithMap p = some m := by
  have hmem := alistLookup_mem_of_some h
  simp only [typeMap, List.mem_cons, List.not_mem_nil, or_false, Prod.mk.injEq] at hmem
  rcases hmem with ⟨rfl, rfl⟩ | ⟨rfl, rfl⟩ | ⟨rfl, rfl⟩ | ⟨rfl, rfl⟩ | ⟨rfl, rfl⟩ |
    ⟨rfl, rfl⟩ | ⟨rfl, rfl⟩ <;> decide

/-- Witness for C9 at the ed25519 type and its prefix. -/
theorem typeMap_startsWithMap_same_handler_witness :
    alistLookup startsWithMap "did:key:z6Mk" = some .ed25519 :=
  typeMap_startsWithMap_same_handler "ed25519" .ed25519 rfl "did:key:z6Mk" (by decide)

/-- C8: when the dispatched handler returns an empty keys list, `generate2`
fails; the failure is the TypeError thrown while destructuring the missing
first key (the zero-keys failure mode). -/
theorem generate2_zero_keys_fails
    (genImpl : HandlerModule → GenOpts → ResOpts → Except JsError DidGeneration)
    (options : G2Options) (g : DidGeneration)
    (hgen : generate genImpl options.type { secureRandomHex := options.seed }
      { accept := options.accept } = .ok g)
    (hkeys : g.keys = []) :
    generate2 genImpl options =
      .error (.typeError "Cannot destructure property publicKeyJwk of undefined") := by
  simp [generate2, hgen, hkeys, Bind.bind, Except.bind]

/-- Witness for C8 at a concrete handler returning zero keys. -/
theorem generate2_zero_keys_fails_witness :
    generate2 emptyGenImpl { type := "ed25519" } =
      .error (.typeError "Cannot destructure property publicKeyJwk of undefined") :=
  generate2_zero_keys_fails emptyGenImpl { type := "ed25519" }
    { keys := [], didDocument := { id := "did:key:z6MkTEST", verificationMethod := [] } }
    rfl rfl

/-- C10: `convert` on an empty keys list fails, for every environment, with
the TypeError from reading `controller` of `undefined`, before any
resolution; and the resolutions `convert` performs read the handler resolve
functions only at the controller of the first key, so two environments agreeing
there are indistinguishable whatever the other keys carry. -/
theorem convert_first_controller_only {H : Type}
    (kpFrom : KeyPairClass → DidKey → Except JsError H)
    (kpExport : KeyPairClass → H → ExportArgs → Except JsError DidKey)
    (ro : ResOpts) :
    (∀ resImpl, convert resImpl kpFrom kpExport ([] : List DidKey) ro =
      .error (.typeError "Cannot read properties of undefined (reading controller)")) ∧
    (∀ resImpl resImpl2 (k0 : DidKey) (rest : List DidKey),
      (∀ m ro2, resImpl m k0.controller ro2 = resImpl2 m k0.controller ro2) →
      convert resImpl kpFrom kpExport (k0 :: rest) ro =
        convert resImpl2 kpFrom kpExport (k0 :: rest) ro) := by
  constructor
  · intro resImpl
    rfl
  · intro r1 r2 k0 rest h
    have hres : ∀ ro2, resolve r1 k0.controller ro2 = resolve r2 k0.controller ro2 := by
      intro ro2
      simp only [resolve]
      cases halist : alistLookup startsWithMap (substring12 k0.controller) with
      | none => rfl
      | some m => exact h m ro2
    simp only [convert, hres]

/-- Witness for C10: the two parts at a concrete environment. -/
theorem convert_first_controller_only_witness :
    convert convResImplFixture convFromFixture convExportFixture ([] : List DidKey)
      { accept := some "application/did+ld+json" } =
      .error (.typeError "Cannot read properties of undefined (reading controller)") :=
  (convert_first_controller_only convFromFixture convExportFixture
    { accept := some "application/did+ld+json" }).1 convResImplFixture

/-- C1 (divergence witness): the re-stamp `\x7b id: didUrl, controller: did,
...k \x7d` in `generate2` spreads the key last, so the handler key keeps its
own id and controller; at this concrete input the returned key still carries
the handler ids while the document id is the fresh did:jwk identifier. -/
theorem generate2_restamp_overridden_by_spread :
    ∃ g, generate2 genImplFixture { type := "ed25519" } = .ok g ∧
      g.keys.map DidKey.id = ["did:key:z6MkTEST#z6MkTEST"] ∧
      g.keys.map DidKey.controller = ["did:key:z6MkTEST"] ∧
      g.didDocument.id =
        "did:jwk:eyJraWQiOiJ6Nk1rVEVTVCIsImt0eSI6Ik9LUCIsImNydiI6IkVkMjU1MTkiLCJ4IjoiYWJjIn0" ∧
      g.keys.map DidKey.id ≠ [g.didDocument.id] ∧
      g.keys.map DidKey.controller ≠ [g.didDocument.id] := by
  refine ⟨_, rfl, ?_, ?_, ?_, ?_, ?_⟩ <;> decide

/-- C2 (counterexample): a key whose id is absent from the caller-requested
(new) resolution, while the did+json resolution carries it as a Linked-Data
suite method, makes `convert` fail with the classifier error the
specification names UnsupportedVerificationMethodType — not with a
VerificationMethodNotFound failure. -/
theorem convert_missing_vm_raises_classifier_error :
    convert convResImplFixture convFromFixture convExportFixture [convKeyFixture]
      { accept := some "application/did+ld+json" } =
      .error (.error "getKeyPairClassFromKey only supports JsonWebKey2020") := by
  rfl

/-- C2 (amended): whenever some input key id is absent from the verification
methods of either resolved document, `convert` fails — with the TypeError
from reading a field of the missing method, or, before reaching it, with a
classification or import failure of that key. -/
theorem convert_fails_on_missing_vm {H : Type}
    (resImpl : HandlerModule → String → ResOpts → Except JsError DidResolution)
    (kpFrom : KeyPairClass → DidKey → Except JsError H)
    (kpExport : KeyPairClass → H → ExportArgs → Except JsError DidKey)
    (k0 : DidKey) (rest : List DidKey) (ro : ResOpts) (k : DidKey)
    (oldR newR : DidResolution)
    (hold : resolve resImpl k0.controller { accept := some "application/did+json" } = .ok oldR)
    (hnew : resolve resImpl k0.controller ro = .ok newR)
    (hk : k ∈ k0 :: rest)
    (hmiss : (∀ vm ∈ oldR.didDocument.verificationMethod, vm.id ≠ k.id) ∨
             (∀ vm ∈ newR.didDocument.verificationMethod, vm.id ≠ k.id)) :
    ∃ e, convert resImpl kpFrom kpExport (k0 :: rest) ro = .error e := by
  have hfail := convertKey_fails_of_missing kpFrom kpExport oldR.didDocument
    newR.didDocument k hmiss
  obtain ⟨e, he⟩ := mapExcept_error_of_mem hk hfail
  exact ⟨e, by simp [convert, hold, hnew, he, Bind.bind, Except.bind]⟩

/-- Witness for amended C2 at the concrete conversion fixtures. -/
theorem convert_fails_on_missing_vm_witness :
    ∃ e, convert convResImplFixture convFromFixture convExportFixture
      [convKeyFixture] { accept := some "application/did+ld+json" } = .error e :=
  convert_fails_on_missing_vm convResImplFixture convFromFixture convExportFixture
    convKeyFixture [] { accept := some "application/did+ld+json" } convKeyFixture
    { didDocument := convOldDocFixture } { didDocument := convNewDocFixture }
    rfl rfl (List.mem_singleton.mpr rfl)
    (Or.inr (by simp [convNewDocFixture]))

/-- C6 (counterexample): with a caller-supplied empty `kid`, the chosen kid is
not the caller kid (JavaScript `||` skips the falsy empty string) but the
last controller segment, so the DID differs from the claimed formula at this
input. -/
theorem generate2_empty_kid_skipped :
    ∃ g, generate2 kidlessGenImpl { type := "ed25519", kid := some "" } = .ok g ∧
      g.didDocument.id = didOf (jwkWithKid (.str "zX") (some [("kty", JVal.str "OKP")])) ∧
      g.didDocument.id ≠ didOf (jwkWithKid (.str "") (some [("kty", JVal.str "OKP")])) := by
  refine ⟨_, rfl, ?_, ?_⟩ <;> decide

/-- C6 (amended): on every successful `generate2` run the DID equals
`did:jwk:` plus the unpadded base64url of the JSON serialization of
`\x7b kid, ...publicKeyJwk \x7d` — a pure function of the public JWK and the
chosen kid — where the kid is, in JavaScript-truthiness priority order, the
caller kid when non-empty, else a truthy kid field of the public JWK, else
the last colon-delimited segment of the key controller. -/
theorem generate2_did_formula
    (genImpl : HandlerModule → GenOpts → ResOpts → Except JsError DidGeneration)
    (options : G2Options) (gRaw : DidGeneration) (key : DidKey)
    (rest : List DidKey) (g : DidGeneration)
    (hgen : generate genImpl options.type { secureRandomHex := options.seed }
      { accept := options.accept } = .ok gRaw)
    (hkeys : gRaw.keys = key :: rest)
    (hok : generate2 genImpl options = .ok g) :
    ∃ kid, computeKid options key = .ok kid ∧
      g.didDocument.id = didOf (jwkWithKid kid key.publicKeyJwk) ∧
      (∀ s, options.kid = some s → s ≠ "" → kid = .str s) ∧
      (options.kid.getD "" = "" → ∀ pk v, key.publicKeyJwk = some pk →
        jLookup pk "kid" = some v → truthy v = true → kid = v) ∧
      (options.kid.getD "" = "" → ∀ pk, key.publicKeyJwk = some pk →
        truthyOpt (jLookup pk "kid") = false →
        kid = .str (lastSegment key.controller)) := by
  simp only [generate2, hgen, Bind.bind, Except.bind, hkeys] at hok
  cases hkid : computeKid options key with
  | error e =>
    rw [hkid] at hok
    cases hok
  | ok kid =>
    rw [hkid] at hok
    refine ⟨kid, rfl, ?_, ?_, ?_, ?_⟩
    · cases hok
      rfl
    · intro s hs hne
      simp only [computeKid, hs] at hkid
      rw [if_pos hne] at hkid
      exact (Except.ok.inj hkid).symm
    · intro hd pk v hpk hkv htr
      have hfb : kidFallback key = .ok kid := by
        cases hko : options.kid with
        | none => rw [computeKid, hko] at hkid; exact hkid
        | some s =>
          rw [hko] at hd
          simp at hd
          subst hd
          rw [computeKid, hko] at hkid
          simpa using hkid
      simp only [kidFallback, hpk, hkv] at hfb
      rw [if_pos htr] at hfb
      exact (Except.ok.inj hfb).symm
    · intro hd pk hpk htr
      have hfb : kidFallback key = .ok kid := by
        cases hko : options.kid with
        | none => rw [computeKid, hko] at hkid; exact hkid
        | some s =>
          rw [hko] at hd
          simp at hd
          subst hd
          rw [computeKid, hko] at hkid
          simpa using hkid
      simp only [kidFallback, hpk] at hfb
      cases hkv : jLookup pk "kid" with
      | none =>
        simp only [hkv] at hfb
        exact (Except.ok.inj hfb).symm
      | some v =>
        simp only [hkv] at hfb
        rw [hkv] at htr
        have htv : truthy v = false := htr
        rw [if_neg (by simp [htv])] at hfb
        exact (Except.ok.inj hfb).symm

/-- Witness for amended C6: a concrete run with a truthy caller kid. -/
theorem generate2_did_formula_witness :
    ∃ kid, computeKid { type := "ed25519", seed := none, kid := some "zK", accept := none }
        kidlessKeyFixture = .ok kid ∧
      "did:jwk:eyJraWQiOiJ6SyIsImt0eSI6Ik9LUCJ9" =
        didOf (jwkWithKid kid kidlessKeyFixture.publicKeyJwk) := by
  obtain ⟨kid, h1, h2, _⟩ := generate2_did_formula kidlessGenImpl
    { type := "ed25519", seed := none, kid := some "zK", accept := none }
    _ kidlessKeyFixture [] _ rfl rfl rfl
  exact ⟨kid, h1, h2⟩

/-- C7: every successful `generate2` produces a document with exactly one
verification method, of type JsonWebKey2020, whose id and controller equal
the document id, with each of the four relationship arrays the singleton of
that id, and the id carries no fragment. -/
theorem generate2_document_shape
    (genImpl : HandlerModule → GenOpts → ResOpts → Except JsError DidGeneration)
    (options : G2Options) (g : DidGeneration)
    (hok : generate2 genImpl options = .ok g) :
    (∃ jwk, g.didDocument.verificationMethod =
      [{ id := g.didDocument.id, type := "JsonWebKey2020",
         controller := g.didDocument.id, publicKeyJwk := some jwk,
         publicKeyBase58 := none }]) ∧
    g.didDocument.authentication = [g.didDocument.id] ∧
    g.didDocument.capabilityInvocation = [g.didDocument.id] ∧
    g.didDocument.capabilityDelegation = [g.didDocument.id] ∧
    g.didDocument.keyAgreement = [g.didDocument.id] ∧
    (∀ c ∈ g.didDocument.id.toList, c ≠ '#') := by
  cases hgen : generate genImpl options.type { secureRandomHex := options.seed }
      { accept := options.accept } with
  | error e =>
    simp only [generate2, hgen, Bind.bind, Except.bind] at hok
    cases hok
  | ok gRaw =>
    cases hkeys : gRaw.keys with
    | nil =>
      simp only [generate2, hgen, Bind.bind, Except.bind, hkeys] at hok
      cases hok
    | cons key rest =>
      simp only [generate2, hgen, Bind.bind, Except.bind, hkeys] at hok
      cases hkid : computeKid options key with
      | error e =>
        rw [hkid] at hok
        cases hok
      | ok kid =>
        rw [hkid] at hok
        cases hok
        exact ⟨⟨jwkWithKid kid key.publicKeyJwk, rfl⟩, rfl, rfl, rfl, rfl,
          didOf_no_hash (jwkWithKid kid key.publicKeyJwk)⟩

/-- Witness for C7 at a concrete run. -/
theorem generate2_document_shape_witness :
    ∃ g, generate2 genImplFixture { type := "ed25519" } = .ok g ∧
      g.didDocument.authentication = [g.didDocument.id] ∧
      g.didDocument.keyAgreement = [g.didDocument.id] ∧
      (∀ c ∈ g.didDocument.id.toList, c ≠ '#') := by
  refine ⟨_, rfl, ?_⟩
  have h := generate2_document_shape genImplFixture { type := "ed25519" } _ rfl
  exact ⟨h.2.1, h.2.2.2.2.1, h.2.2.2.2.2⟩
